import Mathlib

/-!
Shallow embedding of src/app.py, an in-memory FastAPI backend for a rhythm
game.  The module-level dicts users_db, songs_db, user_entitlements_db,
gameplay_sessions_db, performance_metrics_db, purchases_db and admins_db
become the fields of a Store structure; every route handler becomes a
function from a Store (plus the values the server generates at request time:
the uuid4 identifier and the current UTC instant) to a pair of a result and
the successor Store.  Raised HTTPExceptions become Except.error values.
-/

namespace RhythmGame

/-- Opaque identifiers; uuid4() values in the source. -/
abbrev Id := Nat

/-- UTC instants; datetime.datetime.now(datetime.timezone.utc) in the source. -/
abbrev Time := Nat

/-- Opaque structured blob for the Dict-typed fields (beatmapJson, modifiers);
the service only stores and returns these values, never inspects them. -/
abbrev Json := List (String × String)

/-- Enum EntitlementSource of src/app.py. -/
inductive EntitlementSource where
  | purchase
  | promo
  | admin
  | default
deriving DecidableEq, Repr

/-- Enum AdminRole of src/app.py. -/
inductive AdminRole where
  | editor
  | publisher
  | superadmin
deriving DecidableEq, Repr

/-- Pydantic model UserCreate. -/
structure UserCreate where
  name : String
  email : String
deriving DecidableEq, Repr

/-- Pydantic model UserUpdate; none means the field was absent from the
request (model_dump with exclude_unset drops it). -/
structure UserUpdate where
  name : Option String
  email : Option String
deriving DecidableEq, Repr

/-- Pydantic model UserResponse, the stored user record. -/
structure UserResponse where
  id : Id
  name : String
  email : String
  createdAt : Time
  updatedAt : Time
deriving DecidableEq, Repr

/-- Pydantic model SongCreate. -/
structure SongCreate where
  title : String
  artist : String
  bpm : Int
  durationSeconds : Int
  beatmapJson : Json
  audioPath : String
  coverPath : Option String
  version : String
  isPublished : Bool
deriving DecidableEq, Repr

/-- Pydantic model SongUpdate; the outer Option is presence in the request,
and for the nullable target field coverPath the inner Option is the value. -/
structure SongUpdate where
  title : Option String
  artist : Option String
  bpm : Option Int
  durationSeconds : Option Int
  beatmapJson : Option Json
  audioPath : Option String
  coverPath : Option (Option String)
  version : Option String
  isPublished : Option Bool
deriving DecidableEq, Repr

/-- Pydantic model SongResponse, the stored song record. -/
structure SongResponse where
  id : Id
  title : String
  artist : String
  bpm : Int
  durationSeconds : Int
  beatmapJson : Json
  audioPath : String
  coverPath : Option String
  version : String
  isPublished : Bool
  createdAt : Time
  updatedAt : Time
deriving DecidableEq, Repr

/-- Pydantic model UserEntitlementCreate. -/
structure UserEntitlementCreate where
  userId : Id
  songId : Id
  source : EntitlementSource
deriving DecidableEq, Repr

/-- Pydantic model UserEntitlementResponse, the stored entitlement record. -/
structure UserEntitlementResponse where
  userId : Id
  songId : Id
  source : EntitlementSource
  grantedAt : Time
deriving DecidableEq, Repr

/-- Pydantic model PerformanceMetricResponse, the stored metric record.
The float-typed accuracy field is carried opaquely (never computed with). -/
structure PerformanceMetricResponse where
  sessionId : Id
  score : Int
  accuracy : Int
  maxCombo : Option Int
  modifiers : Option Json
  submittedAt : Time
  replayHash : Option String
  signature : Option String
deriving DecidableEq, Repr

/-- Pydantic model PerformanceMetricCreate. -/
structure PerformanceMetricCreate where
  score : Int
  accuracy : Int
  maxCombo : Option Int
  modifiers : Option Json
  replayHash : Option String
  signature : Option String
deriving DecidableEq, Repr

/-- Pydantic model GameplaySessionCreate. -/
structure GameplaySessionCreate where
  userId : Id
  songId : Id
  songVersion : String
  clientVersion : String
  endedAt : Option Time
  deviceInfo : Option String
  isSynced : Bool
deriving DecidableEq, Repr

/-- Pydantic model GameplaySessionUpdate; the outer Option is presence in the
request, the inner Option (for nullable targets) is the value. -/
structure GameplaySessionUpdate where
  endedAt : Option (Option Time)
  deviceInfo : Option (Option String)
  isSynced : Option Bool
deriving DecidableEq, Repr

/-- Pydantic model GameplaySessionResponse, the stored session record.  The
performance field is part of the stored object: the GET handler assigns to it
through the reference it got from the dict, so the assignment is visible in
the store afterwards. -/
structure GameplaySessionResponse where
  id : Id
  userId : Id
  songId : Id
  songVersion : String
  clientVersion : String
  startedAt : Time
  endedAt : Option Time
  deviceInfo : Option String
  isSynced : Bool
  performance : Option PerformanceMetricResponse
deriving DecidableEq, Repr

/-- Pydantic model PurchaseCreate. -/
structure PurchaseCreate where
  userId : Id
  songId : Id
  priceCents : Int
  currency : String
  paymentProcessor : Option String
  paymentReference : Option String
  refunded : Bool
deriving DecidableEq, Repr

/-- Pydantic model PurchaseUpdate. -/
structure PurchaseUpdate where
  priceCents : Option Int
  currency : Option String
  paymentProcessor : Option (Option String)
  paymentReference : Option (Option String)
  refunded : Option Bool
deriving DecidableEq, Repr

/-- Pydantic model PurchaseResponse, the stored purchase record. -/
structure PurchaseResponse where
  id : Id
  userId : Id
  songId : Id
  priceCents : Int
  currency : String
  paymentProcessor : Option String
  paymentReference : Option String
  purchasedAt : Time
  refunded : Bool
deriving DecidableEq, Repr

/-- Pydantic model AdminCreate. -/
structure AdminCreate where
  userId : Id
  role : AdminRole
deriving DecidableEq, Repr

/-- Pydantic model AdminUpdate. -/
structure AdminUpdate where
  role : Option AdminRole
deriving DecidableEq, Repr

/-- Pydantic model AdminResponse, the stored admin record; its id is its own
key, distinct from the userId it refers to. -/
structure AdminResponse where
  id : Id
  userId : Id
  role : AdminRole
  grantedAt : Time
deriving DecidableEq, Repr

/-- Association-list model of a Python dict lookup d.get(k). -/
def dictGet {κ α : Type} [DecidableEq κ] : List (κ × α) → κ → Option α
  | [], _ => none
  | (k', v) :: rest, k => if k' = k then some v else dictGet rest k

/-- Association-list model of a Python dict assignment d[k] = v: replaces the
entry in place when the key is present, appends otherwise (insertion order is
preserved, as for Python dicts). -/
def dictSet {κ α : Type} [DecidableEq κ] : List (κ × α) → κ → α → List (κ × α)
  | [], k, v => [(k, v)]
  | (k', v') :: rest, k, v =>
      if k' = k then (k, v) :: rest else (k', v') :: dictSet rest k v

/-- Association-list model of Python del d[k]. -/
def dictDelete {κ α : Type} [DecidableEq κ] : List (κ × α) → κ → List (κ × α)
  | [], _ => []
  | (k', v') :: rest, k => if k' = k then rest else (k', v') :: dictDelete rest k

/-- Membership test k in d. -/
def dictContains {κ α : Type} [DecidableEq κ] (d : List (κ × α)) (k : κ) : Bool :=
  (dictGet d k).isSome

/-- Model of d.values(). -/
def dictValues {κ α : Type} (d : List (κ × α)) : List α :=
  d.map Prod.snd

/-- The module-level in-memory database of src/app.py, one dict per entity.
The source keys user_entitlements_db by the string userId ++ "-" ++ songId;
both components are fixed-width uuid4 renderings, so that keying is injective
on pairs and is modeled by the pair (userId, songId) itself. -/
structure Store where
  users_db : List (Id × UserResponse)
  songs_db : List (Id × SongResponse)
  user_entitlements_db : List ((Id × Id) × UserEntitlementResponse)
  gameplay_sessions_db : List (Id × GameplaySessionResponse)
  performance_metrics_db : List (Id × PerformanceMetricResponse)
  purchases_db : List (Id × PurchaseResponse)
  admins_db : List (Id × AdminResponse)
deriving DecidableEq, Repr

/-- The store at process start: every table empty. -/
def emptyStore : Store :=
  { users_db := [], songs_db := [], user_entitlements_db := [],
    gameplay_sessions_db := [], performance_metrics_db := [],
    purchases_db := [], admins_db := [] }

/-- Raised HTTPExceptions, by status code, with their detail string. -/
inductive ApiError where
  | notFound (detail : String)
  | conflict (detail : String)
  | badRequest (detail : String)
deriving DecidableEq, Repr

instance {ε α : Type} [DecidableEq ε] [DecidableEq α] : DecidableEq (Except ε α)
  | Except.error a, Except.error b =>
      if h : a = b then isTrue (congrArg Except.error h)
      else isFalse (fun hc => h (Except.error.inj hc))
  | Except.error _, Except.ok _ => isFalse (fun hc => Except.noConfusion hc)
  | Except.ok _, Except.error _ => isFalse (fun hc => Except.noConfusion hc)
  | Except.ok a, Except.ok b =>
      if h : a = b then isTrue (congrArg Except.ok h)
      else isFalse (fun hc => h (Except.ok.inj hc))

/-- GET /users. -/
def get_all_users (st : Store) : Except ApiError (List UserResponse) × Store :=
  (Except.ok (dictValues st.users_db), st)

/-- POST /users.  newId and now stand for the uuid4() and now() calls. -/
def create_user (st : Store) (newId : Id) (now : Time) (user_data : UserCreate) :
    Except ApiError UserResponse × Store :=
  if (dictValues st.users_db).any (fun u => u.email == user_data.email) then
    (Except.error (ApiError.conflict "Email already registered"), st)
  else
    let new_user : UserResponse :=
      { id := newId, name := user_data.name, email := user_data.email,
        createdAt := now, updatedAt := now }
    (Except.ok new_user, { st with users_db := dictSet st.users_db newId new_user })

/-- GET /users/user_id. -/
def get_user_by_id (st : Store) (user_id : Id) :
    Except ApiError UserResponse × Store :=
  match dictGet st.users_db user_id with
  | none => (Except.error (ApiError.notFound "User not found"), st)
  | some user => (Except.ok user, st)

/-- The setattr loop of update_user over model_dump(exclude_unset := true). -/
def applyUserUpdate (user : UserResponse) (p : UserUpdate) : UserResponse :=
  { user with
    name := p.name.getD user.name,
    email := p.email.getD user.email }

/-- PUT /users/user_id. -/
def update_user (st : Store) (user_id : Id) (now : Time) (user_data : UserUpdate) :
    Except ApiError UserResponse × Store :=
  match dictGet st.users_db user_id with
  | none => (Except.error (ApiError.notFound "User not found"), st)
  | some user =>
      let user' := { applyUserUpdate user user_data with updatedAt := now }
      (Except.ok user', { st with users_db := dictSet st.users_db user_id user' })

/-- DELETE /users/user_id. -/
def delete_user (st : Store) (user_id : Id) : Except ApiError Unit × Store :=
  if dictContains st.users_db user_id then
    (Except.ok (), { st with users_db := dictDelete st.users_db user_id })
  else
    (Except.error (ApiError.notFound "User not found"), st)

/-- GET /songs. -/
def get_all_songs (st : Store) : Except ApiError (List SongResponse) × Store :=
  (Except.ok (dictValues st.songs_db), st)

/-- POST /songs. -/
def create_song (st : Store) (newId : Id) (now : Time) (song_data : SongCreate) :
    Except ApiError SongResponse × Store :=
  let new_song : SongResponse :=
    { id := newId, title := song_data.title, artist := song_data.artist,
      bpm := song_data.bpm, durationSeconds := song_data.durationSeconds,
      beatmapJson := song_data.beatmapJson, audioPath := song_data.audioPath,
      coverPath := song_data.coverPath, version := song_data.version,
      isPublished := song_data.isPublished, createdAt := now, updatedAt := now }
  (Except.ok new_song, { st with songs_db := dictSet st.songs_db newId new_song })

/-- GET /songs/song_id. -/
def get_song_by_id (st : Store) (song_id : Id) :
    Except ApiError SongResponse × Store :=
  match dictGet st.songs_db song_id with
  | none => (Except.error (ApiError.notFound "Song not found"), st)
  | some song => (Except.ok song, st)

/-- The setattr loop of update_song over model_dump(exclude_unset := true). -/
def applySongUpdate (song : SongResponse) (p : SongUpdate) : SongResponse :=
  { song with
    title := p.title.getD song.title,
    artist := p.artist.getD song.artist,
    bpm := p.bpm.getD song.bpm,
    durationSeconds := p.durationSeconds.getD song.durationSeconds,
    beatmapJson := p.beatmapJson.getD song.beatmapJson,
    audioPath := p.audioPath.getD song.audioPath,
    coverPath := p.coverPath.getD song.coverPath,
    version := p.version.getD song.version,
    isPublished := p.isPublished.getD song.isPublished }

/-- PUT /songs/song_id. -/
def update_song (st : Store) (song_id : Id) (now : Time) (song_data : SongUpdate) :
    Except ApiError SongResponse × Store :=
  match dictGet st.songs_db song_id with
  | none => (Except.error (ApiError.notFound "Song not found"), st)
  | some song =>
      let song' := { applySongUpdate song song_data with updatedAt := now }
      (Except.ok song', { st with songs_db := dictSet st.songs_db song_id song' })

/-- DELETE /songs/song_id. -/
def delete_song (st : Store) (song_id : Id) : Except ApiError Unit × Store :=
  if dictContains st.songs_db song_id then
    (Except.ok (), { st with songs_db := dictDelete st.songs_db song_id })
  else
    (Except.error (ApiError.notFound "Song not found"), st)

/-- POST /gameplaysessions. -/
def create_gameplay_session (st : Store) (newId : Id) (now : Time)
    (session_data : GameplaySessionCreate) :
    Except ApiError GameplaySessionResponse × Store :=
  if dictContains st.users_db session_data.userId = false then
    (Except.error (ApiError.notFound "User not found"), st)
  else if dictContains st.songs_db session_data.songId = false then
    (Except.error (ApiError.notFound "Song not found"), st)
  else
    let new_session : GameplaySessionResponse :=
      { id := newId, userId := session_data.userId, songId := session_data.songId,
        songVersion := session_data.songVersion,
        clientVersion := session_data.clientVersion,
        startedAt := now, endedAt := session_data.endedAt,
        deviceInfo := session_data.deviceInfo, isSynced := session_data.isSynced,
        performance := none }
    (Except.ok new_session,
     { st with gameplay_sessions_db := dictSet st.gameplay_sessions_db newId new_session })

/-- GET /gameplaysessions/session_id.  In the source, session is a reference
to the stored object, and the line session.performance = performance_metrics_db.get(session_id)
mutates that object in place, so the stored record changes too. -/
def get_gameplay_session_by_id (st : Store) (session_id : Id) :
    Except ApiError GameplaySessionResponse × Store :=
  match dictGet st.gameplay_sessions_db session_id with
  | none => (Except.error (ApiError.notFound "Gameplay session not found"), st)
  | some session =>
      let session' :=
        { session with performance := dictGet st.performance_metrics_db session_id }
      (Except.ok session',
       { st with gameplay_sessions_db := dictSet st.gameplay_sessions_db session_id session' })

/-- The setattr loop of update_gameplay_session. -/
def applyGameplaySessionUpdate (s : GameplaySessionResponse)
    (p : GameplaySessionUpdate) : GameplaySessionResponse :=
  { s with
    endedAt := p.endedAt.getD s.endedAt,
    deviceInfo := p.deviceInfo.getD s.deviceInfo,
    isSynced := p.isSynced.getD s.isSynced }

/-- PUT /gameplaysessions/session_id. -/
def update_gameplay_session (st : Store) (session_id : Id)
    (session_data : GameplaySessionUpdate) :
    Except ApiError GameplaySessionResponse × Store :=
  match dictGet st.gameplay_sessions_db session_id with
  | none => (Except.error (ApiError.notFound "Gameplay session not found"), st)
  | some session =>
      let session' := applyGameplaySessionUpdate session session_data
      (Except.ok session',
       { st with gameplay_sessions_db := dictSet st.gameplay_sessions_db session_id session' })

/-- POST /gameplaysessions/session_id/performance. -/
def submit_performance_metrics (st : Store) (session_id : Id) (now : Time)
    (performance_data : PerformanceMetricCreate) :
    Except ApiError PerformanceMetricResponse × Store :=
  if dictContains st.gameplay_sessions_db session_id = false then
    (Except.error (ApiError.notFound "Gameplay session not found"), st)
  else if dictContains st.performance_metrics_db session_id then
    (Except.error (ApiError.conflict "Performance metrics already exist for this session"), st)
  else
    let new_performance : PerformanceMetricResponse :=
      { sessionId := session_id, score := performance_data.score,
        accuracy := performance_data.accuracy, maxCombo := performance_data.maxCombo,
        modifiers := performance_data.modifiers, submittedAt := now,
        replayHash := performance_data.replayHash,
        signature := performance_data.signature }
    (Except.ok new_performance,
     { st with performance_metrics_db :=
        dictSet st.performance_metrics_db session_id new_performance })

/-- GET /gameplaysessions/session_id/performance. -/
def get_performance_metrics (st : Store) (session_id : Id) :
    Except ApiError PerformanceMetricResponse × Store :=
  match dictGet st.performance_metrics_db session_id with
  | none => (Except.error (ApiError.notFound "Performance metrics not found for this session"), st)
  | some performance => (Except.ok performance, st)

/-- GET /purchases. -/
def get_all_purchases (st : Store) : Except ApiError (List PurchaseResponse) × Store :=
  (Except.ok (dictValues st.purchases_db), st)

/-- The PurchaseResponse record built by record_purchase. -/
def newPurchaseRecord (newId : Id) (now : Time) (purchase_data : PurchaseCreate) :
    PurchaseResponse :=
  { id := newId, userId := purchase_data.userId, songId := purchase_data.songId,
    priceCents := purchase_data.priceCents, currency := purchase_data.currency,
    paymentProcessor := purchase_data.paymentProcessor,
    paymentReference := purchase_data.paymentReference,
    purchasedAt := now, refunded := purchase_data.refunded }

/-- POST /purchases: inserts the purchase, then grants the entitlement for
(userId, songId) with source purchase when none exists yet. -/
def record_purchase (st : Store) (newId : Id) (now : Time)
    (purchase_data : PurchaseCreate) :
    Except ApiError PurchaseResponse × Store :=
  if dictContains st.users_db purchase_data.userId = false then
    (Except.error (ApiError.notFound "User not found"), st)
  else if dictContains st.songs_db purchase_data.songId = false then
    (Except.error (ApiError.notFound "Song not found"), st)
  else
    let new_purchase := newPurchaseRecord newId now purchase_data
    let st1 := { st with purchases_db := dictSet st.purchases_db newId new_purchase }
    let entitlement_key := (purchase_data.userId, purchase_data.songId)
    let st2 :=
      if dictContains st1.user_entitlements_db entitlement_key then st1
      else
        let new_entitlement : UserEntitlementResponse :=
          { userId := purchase_data.userId, songId := purchase_data.songId,
            source := EntitlementSource.purchase, grantedAt := now }
        { st1 with user_entitlements_db :=
            dictSet st1.user_entitlements_db entitlement_key new_entitlement }
    (Except.ok new_purchase, st2)

/-- GET /purchases/purchase_id. -/
def get_purchase_by_id (st : Store) (purchase_id : Id) :
    Except ApiError PurchaseResponse × Store :=
  match dictGet st.purchases_db purchase_id with
  | none => (Except.error (ApiError.notFound "Purchase not found"), st)
  | some purchase => (Except.ok purchase, st)

/-- The setattr loop of update_purchase. -/
def applyPurchaseUpdate (p : PurchaseResponse) (u : PurchaseUpdate) : PurchaseResponse :=
  { p with
    priceCents := u.priceCents.getD p.priceCents,
    currency := u.currency.getD p.currency,
    paymentProcessor := u.paymentProcessor.getD p.paymentProcessor,
    paymentReference := u.paymentReference.getD p.paymentReference,
    refunded := u.refunded.getD p.refunded }

/-- PUT /purchases/purchase_id. -/
def update_purchase (st : Store) (purchase_id : Id) (purchase_data : PurchaseUpdate) :
    Except ApiError PurchaseResponse × Store :=
  match dictGet st.purchases_db purchase_id with
  | none => (Except.error (ApiError.notFound "Purchase not found"), st)
  | some purchase =>
      let purchase' := applyPurchaseUpdate purchase purchase_data
      (Except.ok purchase',
       { st with purchases_db := dictSet st.purchases_db purchase_id purchase' })

/-- GET /admins. -/
def get_all_admins (st : Store) : Except ApiError (List AdminResponse) × Store :=
  (Except.ok (dictValues st.admins_db), st)

/-- POST /admins. -/
def create_admin (st : Store) (newId : Id) (now : Time) (admin_data : AdminCreate) :
    Except ApiError AdminResponse × Store :=
  if dictContains st.users_db admin_data.userId = false then
    (Except.error (ApiError.notFound "User not found"), st)
  else if (dictValues st.admins_db).any (fun a => a.userId == admin_data.userId) then
    (Except.error (ApiError.conflict "User already has an admin role"), st)
  else
    let new_admin : AdminResponse :=
      { id := newId, userId := admin_data.userId, role := admin_data.role,
        grantedAt := now }
    (Except.ok new_admin, { st with admins_db := dictSet st.admins_db newId new_admin })

/-- GET /admins/admin_id. -/
def get_admin_by_id (st : Store) (admin_id : Id) :
    Except ApiError AdminResponse × Store :=
  match dictGet st.admins_db admin_id with
  | none => (Except.error (ApiError.notFound "Admin entry not found"), st)
  | some admin => (Except.ok admin, st)

/-- PUT /admins/admin_id: the role is assigned only when the request supplies
one (the source tests the field for Python truthiness; a role enum member is
a non-empty string, hence always truthy). -/
def update_admin_role (st : Store) (admin_id : Id) (admin_data : AdminUpdate) :
    Except ApiError AdminResponse × Store :=
  match dictGet st.admins_db admin_id with
  | none => (Except.error (ApiError.notFound "Admin entry not found"), st)
  | some admin =>
      let admin' :=
        match admin_data.role with
        | none => admin
        | some r => { admin with role := r }
      (Except.ok admin', { st with admins_db := dictSet st.admins_db admin_id admin' })

/-- DELETE /admins/admin_id. -/
def delete_admin (st : Store) (admin_id : Id) : Except ApiError Unit × Store :=
  if dictContains st.admins_db admin_id then
    (Except.ok (), { st with admins_db := dictDelete st.admins_db admin_id })
  else
    (Except.error (ApiError.notFound "Admin entry not found"), st)

/-- GET /users/user_id/entitlements. -/
def get_user_entitlements (st : Store) (user_id : Id) :
    Except ApiError (List UserEntitlementResponse) × Store :=
  if dictContains st.users_db user_id = false then
    (Except.error (ApiError.notFound "User not found"), st)
  else
    (Except.ok ((dictValues st.user_entitlements_db).filter
        (fun ent => ent.userId == user_id)), st)

/-- POST /users/user_id/entitlements. -/
def grant_user_entitlement (st : Store) (user_id : Id) (now : Time)
    (entitlement_data : UserEntitlementCreate) :
    Except ApiError UserEntitlementResponse × Store :=
  if user_id ≠ entitlement_data.userId then
    (Except.error (ApiError.badRequest "User ID in path does not match user ID in body"), st)
  else if dictContains st.users_db user_id = false then
    (Except.error (ApiError.notFound "User not found"), st)
  else if dictContains st.songs_db entitlement_data.songId = false then
    (Except.error (ApiError.notFound "Song not found"), st)
  else if dictContains st.user_entitlements_db (user_id, entitlement_data.songId) then
    (Except.error (ApiError.conflict "User already has this entitlement"), st)
  else
    let new_entitlement : UserEntitlementResponse :=
      { userId := entitlement_data.userId, songId := entitlement_data.songId,
        source := entitlement_data.source, grantedAt := now }
    (Except.ok new_entitlement,
     { st with user_entitlements_db :=
        dictSet st.user_entitlements_db (user_id, entitlement_data.songId) new_entitlement })

/-- One request to any repository route of the API.  The values the server
generates while handling it (the uuid4 key, the now() instant) are carried as
parameters of the operation. -/
inductive Op where
  | getAllUsers
  | createUser (newId : Id) (now : Time) (user_data : UserCreate)
  | getUserById (user_id : Id)
  | updateUser (user_id : Id) (now : Time) (user_data : UserUpdate)
  | deleteUser (user_id : Id)
  | getAllSongs
  | createSong (newId : Id) (now : Time) (song_data : SongCreate)
  | getSongById (song_id : Id)
  | updateSong (song_id : Id) (now : Time) (song_data : SongUpdate)
  | deleteSong (song_id : Id)
  | createGameplaySession (newId : Id) (now : Time) (session_data : GameplaySessionCreate)
  | getGameplaySessionById (session_id : Id)
  | updateGameplaySession (session_id : Id) (session_data : GameplaySessionUpdate)
  | submitPerformanceMetrics (session_id : Id) (now : Time) (performance_data : PerformanceMetricCreate)
  | getPerformanceMetrics (session_id : Id)
  | getAllPurchases
  | recordPurchase (newId : Id) (now : Time) (purchase_data : PurchaseCreate)
  | getPurchaseById (purchase_id : Id)
  | updatePurchase (purchase_id : Id) (purchase_data : PurchaseUpdate)
  | getAllAdmins
  | createAdmin (newId : Id) (now : Time) (admin_data : AdminCreate)
  | getAdminById (admin_id : Id)
  | updateAdminRole (admin_id : Id) (admin_data : AdminUpdate)
  | deleteAdmin (admin_id : Id)
  | getUserEntitlements (user_id : Id)
  | grantUserEntitlement (user_id : Id) (now : Time) (entitlement_data : UserEntitlementCreate)
deriving DecidableEq, Repr

/-- The store after handling one request (the state component of the handler). -/
def step (st : Store) : Op → Store
  | .getAllUsers => (get_all_users st).2
  | .createUser newId now d => (create_user st newId now d).2
  | .getUserById user_id => (get_user_by_id st user_id).2
  | .updateUser user_id now d => (update_user st user_id now d).2
  | .deleteUser user_id => (delete_user st user_id).2
  | .getAllSongs => (get_all_songs st).2
  | .createSong newId now d => (create_song st newId now d).2
  | .getSongById song_id => (get_song_by_id st song_id).2
  | .updateSong song_id now d => (update_song st song_id now d).2
  | .deleteSong song_id => (delete_song st song_id).2
  | .createGameplaySession newId now d => (create_gameplay_session st newId now d).2
  | .getGameplaySessionById session_id => (get_gameplay_session_by_id st session_id).2
  | .updateGameplaySession session_id d => (update_gameplay_session st session_id d).2
  | .submitPerformanceMetrics session_id now d => (submit_performance_metrics st session_id now d).2
  | .getPerformanceMetrics session_id => (get_performance_metrics st session_id).2
  | .getAllPurchases => (get_all_purchases st).2
  | .recordPurchase newId now d => (record_purchase st newId now d).2
  | .getPurchaseById purchase_id => (get_purchase_by_id st purchase_id).2
  | .updatePurchase purchase_id d => (update_purchase st purchase_id d).2
  | .getAllAdmins => (get_all_admins st).2
  | .createAdmin newId now d => (create_admin st newId now d).2
  | .getAdminById admin_id => (get_admin_by_id st admin_id).2
  | .updateAdminRole admin_id d => (update_admin_role st admin_id d).2
  | .deleteAdmin admin_id => (delete_admin st admin_id).2
  | .getUserEntitlements user_id => (get_user_entitlements st user_id).2
  | .grantUserEntitlement user_id now d => (grant_user_entitlement st user_id now d).2

/-- The store reached by a sequence of requests. -/
def runOps (st : Store) (ops : List Op) : Store :=
  List.foldl step st ops

/-- Whether the operation is the user update route. -/
def Op.isUserUpdate : Op → Bool
  | .updateUser _ _ _ => true
  | _ => false

/-- Invariant of claim C1: no two distinct stored users share an email. -/
abbrev usersEmailUnique (st : Store) : Prop :=
  st.users_db.Pairwise (fun a b => a.2.email ≠ b.2.email)

/-- Invariant of claim C8: no two distinct stored admins share a userId. -/
abbrev adminsUserIdUnique (st : Store) : Prop :=
  st.admins_db.Pairwise (fun a b => a.2.userId ≠ b.2.userId)

theorem dictGet_dictSet_self {κ α : Type} [DecidableEq κ] :
    ∀ (d : List (κ × α)) (k : κ) (v : α), dictGet (dictSet d k v) k = some v := by
  intro d
  induction d with
  | nil => intro k v; simp [dictGet, dictSet]
  | cons q rest ih =>
      intro k v
      obtain ⟨k', v'⟩ := q
      by_cases h : k' = k
      · subst h; simp [dictGet, dictSet]
      · simp [dictGet, dictSet, h, ih]

theorem dictGet_dictSet_ne {κ α : Type} [DecidableEq κ] :
    ∀ (d : List (κ × α)) (k k' : κ) (v : α), k ≠ k' →
      dictGet (dictSet d k v) k' = dictGet d k' := by
  intro d
  induction d with
  | nil => intro k k' v h; simp [dictGet, dictSet, h]
  | cons q rest ih =>
      intro k k' v h
      obtain ⟨k1, v1⟩ := q
      by_cases h1 : k1 = k
      · subst h1; simp [dictGet, dictSet, h]
      · by_cases h2 : k1 = k'
        · subst h2; simp [dictGet, dictSet, h1]
        · simp [dictGet, dictSet, h1, h2, ih _ _ _ h]

theorem dictSet_self {κ α : Type} [DecidableEq κ] :
    ∀ {d : List (κ × α)} {k : κ} {v : α}, dictGet d k = some v → dictSet d k v = d := by
  intro d
  induction d with
  | nil => intro k v h; simp [dictGet] at h
  | cons q rest ih =>
      intro k v h
      obtain ⟨k', v'⟩ := q
      by_cases hk : k' = k
      · subst hk
        simp only [dictGet, if_pos rfl] at h
        injection h with h
        subst h
        simp [dictSet]
      · simp only [dictGet, if_neg hk] at h
        simp [dictSet, hk, ih h]

theorem mem_dictSet {κ α : Type} [DecidableEq κ] :
    ∀ {d : List (κ × α)} {k : κ} {v : α} {p : κ × α},
      p ∈ dictSet d k v → p = (k, v) ∨ p ∈ d := by
  intro d
  induction d with
  | nil =>
      intro k v p hp
      simp [dictSet] at hp
      exact Or.inl hp
  | cons q rest ih =>
      intro k v p hp
      obtain ⟨k', v'⟩ := q
      by_cases h : k' = k
      · subst h
        simp only [dictSet, if_pos rfl] at hp
        rcases List.mem_cons.mp hp with h1 | h1
        · exact Or.inl h1
        · exact Or.inr (List.mem_cons_of_mem _ h1)
      · simp only [dictSet, if_neg h] at hp
        rcases List.mem_cons.mp hp with h1 | h1
        · exact Or.inr (h1 ▸ List.mem_cons_self _ _)
        · rcases ih h1 with h2 | h2
          · exact Or.inl h2
          · exact Or.inr (List.mem_cons_of_mem _ h2)

theorem dictGet_mem {κ α : Type} [DecidableEq κ] :
    ∀ {d : List (κ × α)} {k : κ} {v : α}, dictGet d k = some v → (k, v) ∈ d := by
  intro d
  induction d with
  | nil => intro k v h; simp [dictGet] at h
  | cons q rest ih =>
      intro k v h
      obtain ⟨k', v'⟩ := q
      by_cases hk : k' = k
      · subst hk
        simp only [dictGet, if_pos rfl] at h
        injection h with h
        subst h
        exact List.mem_cons_self _ _
      · simp only [dictGet, if_neg hk] at h
        exact List.mem_cons_of_mem _ (ih h)

theorem dictDelete_sublist {κ α : Type} [DecidableEq κ] (d : List (κ × α)) (k : κ) :
    List.Sublist (dictDelete d k) d := by
  induction d with
  | nil => simp [dictDelete]
  | cons q rest ih =>
      obtain ⟨k', v'⟩ := q
      by_cases h : k' = k
      · simp only [dictDelete, if_pos h]
        exact List.sublist_cons_self _ _
      · simp only [dictDelete, if_neg h]
        exact List.Sublist.cons₂ _ ih

theorem pairwise_dictSet {κ α : Type} [DecidableEq κ] {R : κ × α → κ × α → Prop}
    (hsymm : ∀ a b, R a b → R b a) :
    ∀ {d : List (κ × α)} {k : κ} {v : α}, d.Pairwise R →
      (∀ p ∈ d, R (k, v) p) → (dictSet d k v).Pairwise R := by
  intro d
  induction d with
  | nil => intro k v _ _; simp [dictSet]
  | cons q rest ih =>
      intro k v hd hv
      obtain ⟨k', v'⟩ := q
      rw [List.pairwise_cons] at hd
      by_cases h : k' = k
      · subst h
        rw [show dictSet ((k', v') :: rest) k' v = (k', v) :: rest from by simp [dictSet]]
        rw [List.pairwise_cons]
        exact ⟨fun p hp => hv p (List.mem_cons_of_mem _ hp), hd.2⟩
      · simp only [dictSet, if_neg h]
        rw [List.pairwise_cons]
        constructor
        · intro p hp
          rcases mem_dictSet hp with rfl | hp2
          · exact hsymm _ _ (hv (k', v') (List.mem_cons_self _ _))
          · exact hd.1 p hp2
        · exact ih hd.2 (fun p hp => hv p (List.mem_cons_of_mem _ hp))

theorem pairwise_dictSet_congr {κ α : Type} [DecidableEq κ] {R : κ × α → κ × α → Prop} :
    ∀ {d : List (κ × α)} {k : κ} {w v : α}, d.Pairwise R → dictGet d k = some w →
      (∀ a, R a (k, w) → R a (k, v)) → (∀ a, R (k, w) a → R (k, v) a) →
      (dictSet d k v).Pairwise R := by
  intro d
  induction d with
  | nil => intro k w v _ hget _ _; simp [dictGet] at hget
  | cons q rest ih =>
      intro k w v hd hget h1 h2
      obtain ⟨k', v'⟩ := q
      rw [List.pairwise_cons] at hd
      by_cases h : k' = k
      · subst h
        simp only [dictGet, if_pos rfl] at hget
        injection hget with hw
        subst hw
        rw [show dictSet ((k', v') :: rest) k' v = (k', v) :: rest from by simp [dictSet]]
        rw [List.pairwise_cons]
        exact ⟨fun p hp => h2 p (hd.1 p hp), hd.2⟩
      · simp only [dictGet, if_neg h] at hget
        simp only [dictSet, if_neg h]
        rw [List.pairwise_cons]
        constructor
        · intro p hp
          rcases mem_dictSet hp with rfl | hp2
          · exact h1 _ (hd.1 (k, w) (dictGet_mem hget))
          · exact hd.1 p hp2
        · exact ih hd.2 hget h1 h2

theorem step_preserves_usersEmailUnique (st : Store) (op : Op)
    (hop : op.isUserUpdate = false) (h : usersEmailUnique st) :
    usersEmailUnique (step st op) := by
  cases op
  case updateUser uid now d => simp [Op.isUserUpdate] at hop
  case createUser newId now d =>
      show usersEmailUnique (create_user st newId now d).2
      unfold create_user
      split
      · exact h
      · next hguard =>
          refine pairwise_dictSet (fun a b hab => hab.symm) h ?_
          intro p hp hcontra
          apply hguard
          simp only [List.any_eq_true]
          refine ⟨p.2, List.mem_map_of_mem Prod.snd hp, ?_⟩
          simp only [beq_iff_eq]
          exact hcontra.symm
  case deleteUser uid =>
      show usersEmailUnique (delete_user st uid).2
      unfold delete_user
      split
      · exact List.Pairwise.sublist (dictDelete_sublist _ _) h
      · exact h
  all_goals
    simp only [step, get_all_users, get_user_by_id, get_all_songs, create_song,
      get_song_by_id, update_song, delete_song, create_gameplay_session,
      get_gameplay_session_by_id, update_gameplay_session,
      submit_performance_metrics, get_performance_metrics, get_all_purchases,
      record_purchase, get_purchase_by_id, update_purchase, get_all_admins,
      create_admin, get_admin_by_id, update_admin_role, delete_admin,
      get_user_entitlements, grant_user_entitlement]
  all_goals
    first
      | exact h
      | ((repeat' split) <;> exact h)

theorem step_preserves_adminsUserIdUnique (st : Store) (op : Op)
    (h : adminsUserIdUnique st) : adminsUserIdUnique (step st op) := by
  cases op
  case createAdmin newId now d =>
      show adminsUserIdUnique (create_admin st newId now d).2
      unfold create_admin
      split
      · exact h
      split
      · exact h
      · next hguard =>
          refine pairwise_dictSet (fun a b hab => hab.symm) h ?_
          intro p hp hcontra
          apply hguard
          simp only [List.any_eq_true]
          refine ⟨p.2, List.mem_map_of_mem Prod.snd hp, ?_⟩
          simp only [beq_iff_eq]
          exact hcontra.symm
  case updateAdminRole aid d =>
      show adminsUserIdUnique (update_admin_role st aid d).2
      unfold update_admin_role
      split
      · exact h
      · next admin heq =>
          cases d.role with
          | none => exact pairwise_dictSet_congr h heq (fun a ha => ha) (fun a ha => ha)
          | some r => exact pairwise_dictSet_congr h heq (fun a ha => ha) (fun a ha => ha)
  case deleteAdmin aid =>
      show adminsUserIdUnique (delete_admin st aid).2
      unfold delete_admin
      split
      · exact List.Pairwise.sublist (dictDelete_sublist _ _) h
      · exact h
  all_goals
    simp only [step, get_all_users, create_user, get_user_by_id, update_user,
      delete_user, get_all_songs, create_song, get_song_by_id, update_song,
      delete_song, create_gameplay_session, get_gameplay_session_by_id,
      update_gameplay_session, submit_performance_metrics,
      get_performance_metrics, get_all_purchases, record_purchase,
      get_purchase_by_id, update_purchase, get_all_admins, get_admin_by_id,
      get_user_entitlements, grant_user_entitlement]
  all_goals
    first
      | exact h
      | ((repeat' split) <;> exact h)

theorem step_preserves_stored_metric (st : Store) (op : Op) (sid : Id)
    (m : PerformanceMetricResponse)
    (h : dictGet st.performance_metrics_db sid = some m) :
    dictGet (step st op).performance_metrics_db sid = some m := by
  cases op
  case submitPerformanceMetrics session_id now d =>
      show dictGet (submit_performance_metrics st session_id now d).2.performance_metrics_db sid = some m
      unfold submit_performance_metrics
      split
      · exact h
      split
      · exact h
      · next hnot =>
          have hne : session_id ≠ sid := by
            intro hcontra
            subst hcontra
            exact hnot (by simp [dictContains, h])
          exact (dictGet_dictSet_ne _ _ _ _ hne).trans h
  all_goals
    simp only [step, get_all_users, create_user, get_user_by_id, update_user,
      delete_user, get_all_songs, create_song, get_song_by_id, update_song,
      delete_song, create_gameplay_session, get_gameplay_session_by_id,
      update_gameplay_session, get_performance_metrics, get_all_purchases,
      record_purchase, get_purchase_by_id, update_purchase, get_all_admins,
      create_admin, get_admin_by_id, update_admin_role, delete_admin,
      get_user_entitlements, grant_user_entitlement]
  all_goals
    first
      | exact h
      | ((repeat' split) <;> exact h)

/-- Song creation input used by the concrete scenarios. -/
def sampleSongCreate : SongCreate :=
  { title := "tide", artist := "ray", bpm := 120, durationSeconds := 90,
    beatmapJson := [], audioPath := "audio.ogg", coverPath := none,
    version := "1.0", isPublished := true }

/-- Store reached by creating two users with distinct emails through the API. -/
def twoUserStore : Store :=
  runOps emptyStore
    [Op.createUser 1 10 { name := "alice", email := "a@x.com" },
     Op.createUser 2 11 { name := "bob", email := "b@x.com" }]

/-- Store reached by creating a user, making that user an admin, then
deleting the user (the API does not cascade the delete, so the admin record
dangles). -/
def adminNoUserStore : Store :=
  runOps emptyStore
    [Op.createUser 1 10 { name := "alice", email := "a@x.com" },
     Op.createAdmin 20 11 { userId := 1, role := AdminRole.editor },
     Op.deleteUser 1]

/-- Store with one user and one admin record for that user. -/
def userAdminStore : Store :=
  runOps emptyStore
    [Op.createUser 1 10 { name := "alice", email := "a@x.com" },
     Op.createAdmin 20 11 { userId := 1, role := AdminRole.editor }]

/-- C1.  The claim quantifies over every repository operation, user update
included.  It fails: update_user never checks email uniqueness, so updating
one user's email to another user's registered email succeeds and leaves two
distinct stored users with equal emails.  The state below is reached from the
empty store through the API itself. -/
theorem claim_C1_counterexample :
    usersEmailUnique twoUserStore ∧
    ¬ usersEmailUnique
        (step twoUserStore (Op.updateUser 2 12 { name := none, email := some "a@x.com" })) := by
  decide

/-- C1 amended: after every repository operation other than user update, no
two distinct stored users have equal email values; in particular creating a
user whose email equals an already-registered email fails with Conflict and
leaves the whole store (the user table included) unchanged.  The user update
operation does not enforce the invariant. -/
theorem claim_C1_amended :
    (∀ (st : Store) (op : Op), op.isUserUpdate = false →
        usersEmailUnique st → usersEmailUnique (step st op)) ∧
    (∀ (st : Store) (newId : Id) (now : Time) (d : UserCreate),
        (∃ u ∈ dictValues st.users_db, u.email = d.email) →
        create_user st newId now d =
          (Except.error (ApiError.conflict "Email already registered"), st)) := by
  refine ⟨step_preserves_usersEmailUnique, ?_⟩
  intro st newId now d hdup
  have hany : (dictValues st.users_db).any (fun u => u.email == d.email) = true := by
    obtain ⟨u, hu, he⟩ := hdup
    simp only [List.any_eq_true]
    exact ⟨u, hu, by simp [he]⟩
  simp [create_user, hany]

/-- Witness for claim_C1_amended at concrete inputs: deleting a user keeps
the invariant, and a duplicate-email create is rejected with the store
unchanged. -/
theorem claim_C1_witness :
    ((Op.deleteUser 1).isUserUpdate = false ∧ usersEmailUnique twoUserStore ∧
      usersEmailUnique (step twoUserStore (Op.deleteUser 1))) ∧
    ((∃ u ∈ dictValues twoUserStore.users_db,
        u.email = ({ name := "carol", email := "a@x.com" } : UserCreate).email) ∧
      create_user twoUserStore 3 12 { name := "carol", email := "a@x.com" } =
        (Except.error (ApiError.conflict "Email already registered"), twoUserStore)) :=
  ⟨⟨by decide, by decide,
    claim_C1_amended.1 twoUserStore (Op.deleteUser 1) (by decide) (by decide)⟩,
   ⟨by decide,
    claim_C1_amended.2 twoUserStore 3 12 { name := "carol", email := "a@x.com" } (by decide)⟩⟩

/-- C8.  The claim says creating an Admin for a userId that already appears
in some stored Admin record fails with Conflict.  It fails as stated: the
handler checks the User foreign key first, so in a reachable state where the
user behind a dangling admin record was deleted, the second create fails with
NotFound, not Conflict. -/
theorem claim_C8_counterexample :
    (dictValues adminNoUserStore.admins_db).any (fun a => a.userId == 1) = true ∧
    (create_admin adminNoUserStore 21 12 { userId := 1, role := AdminRole.publisher }).1 =
      Except.error (ApiError.notFound "User not found") := by
  decide

/-- C8 amended: after every operation no two distinct stored Admin records
have equal userId values; creating an Admin for a userId that already appears
in a stored Admin record fails with Conflict, with the store unchanged,
provided that userId still references an existing User; and the Admin update
operation cannot change userId (the stored record keeps its userId). -/
theorem claim_C8_amended :
    (∀ (st : Store) (op : Op),
        adminsUserIdUnique st → adminsUserIdUnique (step st op)) ∧
    (∀ (st : Store) (newId : Id) (now : Time) (d : AdminCreate),
        dictContains st.users_db d.userId = true →
        (∃ a ∈ dictValues st.admins_db, a.userId = d.userId) →
        create_admin st newId now d =
          (Except.error (ApiError.conflict "User already has an admin role"), st)) ∧
    (∀ (st : Store) (admin_id : Id) (d : AdminUpdate) (a : AdminResponse),
        dictGet st.admins_db admin_id = some a →
        ((dictGet (update_admin_role st admin_id d).2.admins_db admin_id).map
            (fun a2 => a2.userId)) = some a.userId) := by
  refine ⟨step_preserves_adminsUserIdUnique, ?_, ?_⟩
  · intro st newId now d hu hdup
    have hany : (dictValues st.admins_db).any (fun a => a.userId == d.userId) = true := by
      obtain ⟨a, ha, he⟩ := hdup
      simp only [List.any_eq_true]
      exact ⟨a, ha, by simp [he]⟩
    simp [create_admin, hu, hany]
  · intro st admin_id d a h
    unfold update_admin_role
    rw [h]
    cases d.role with
    | none => simp [dictGet_dictSet_self]
    | some r => simp [dictGet_dictSet_self]

/-- Witness for claim_C8_amended at concrete inputs: deleting the admin keeps
the invariant, the duplicate-admin create is rejected when the user exists,
and a role update keeps the stored userId. -/
theorem claim_C8_witness :
    (adminsUserIdUnique userAdminStore ∧
      adminsUserIdUnique (step userAdminStore (Op.deleteAdmin 20))) ∧
    (dictContains userAdminStore.users_db
        ({ userId := 1, role := AdminRole.publisher } : AdminCreate).userId = true ∧
      (∃ a ∈ dictValues userAdminStore.admins_db,
        a.userId = ({ userId := 1, role := AdminRole.publisher } : AdminCreate).userId) ∧
      create_admin userAdminStore 21 12 { userId := 1, role := AdminRole.publisher } =
        (Except.error (ApiError.conflict "User already has an admin role"), userAdminStore)) ∧
    (dictGet userAdminStore.admins_db 20 =
        some { id := 20, userId := 1, role := AdminRole.editor, grantedAt := 11 } ∧
      ((dictGet (update_admin_role userAdminStore 20
            { role := some AdminRole.superadmin }).2.admins_db 20).map
          (fun a2 => a2.userId)) =
        some ({ id := 20, userId := 1, role := AdminRole.editor,
                grantedAt := 11 } : AdminResponse).userId) :=
  ⟨⟨by decide, claim_C8_amended.1 userAdminStore (Op.deleteAdmin 20) (by decide)⟩,
   ⟨by decide, by decide,
    claim_C8_amended.2.1 userAdminStore 21 12 { userId := 1, role := AdminRole.publisher }
      (by decide) (by decide)⟩,
   ⟨by decide,
    claim_C8_amended.2.2 userAdminStore 20 { role := some AdminRole.superadmin }
      { id := 20, userId := 1, role := AdminRole.editor, grantedAt := 11 } (by decide)⟩⟩

/-- Gameplay session creation input used by the concrete scenarios. -/
def sampleSessionCreate : GameplaySessionCreate :=
  { userId := 1, songId := 2, songVersion := "1.0", clientVersion := "2.0",
    endedAt := none, deviceInfo := none, isSynced := false }

/-- Performance metric submission input used by the concrete scenarios. -/
def sampleMetricCreate : PerformanceMetricCreate :=
  { score := 100, accuracy := 95, maxCombo := none, modifiers := none,
    replayHash := none, signature := none }

/-- Purchase creation input used by the concrete scenarios. -/
def samplePurchaseCreate : PurchaseCreate :=
  { userId := 1, songId := 2, priceCents := 999, currency := "USD",
    paymentProcessor := none, paymentReference := none, refunded := false }

/-- Store with one user and one song, both created through the API. -/
def userSongStore : Store :=
  runOps emptyStore
    [Op.createUser 1 10 { name := "alice", email := "a@x.com" },
     Op.createSong 2 11 sampleSongCreate]

/-- Store with a user, a song, a gameplay session (id 3, started at 12) and a
submitted performance metric for that session, all through the API. -/
def sessionStore : Store :=
  runOps emptyStore
    [Op.createUser 1 10 { name := "alice", email := "a@x.com" },
     Op.createSong 2 11 sampleSongCreate,
     Op.createGameplaySession 3 12 sampleSessionCreate,
     Op.submitPerformanceMetrics 3 13 sampleMetricCreate]

/-- The session record stored in sessionStore under id 3: its performance
field is still none, because submitting a metric does not write the session. -/
def sampleStoredSession : GameplaySessionResponse :=
  { id := 3, userId := 1, songId := 2, songVersion := "1.0", clientVersion := "2.0",
    startedAt := 12, endedAt := none, deviceInfo := none, isSynced := false,
    performance := none }

/-- The metric record stored in sessionStore under session id 3. -/
def sampleStoredMetric : PerformanceMetricResponse :=
  { sessionId := 3, score := 100, accuracy := 95, maxCombo := none,
    modifiers := none, submittedAt := 13, replayHash := none, signature := none }

/-- C2: a successful purchase always returns and inserts the purchase record;
when no entitlement for (userId, songId) existed, one is created with source
purchase and grantedAt equal to the purchase timestamp, and when one existed
the entitlement table is left exactly as it was. -/
theorem claim_C2 (st : Store) (newId : Id) (now : Time) (d : PurchaseCreate)
    (hu : dictContains st.users_db d.userId = true)
    (hs : dictContains st.songs_db d.songId = true) :
    (record_purchase st newId now d).1 = Except.ok (newPurchaseRecord newId now d) ∧
    dictGet (record_purchase st newId now d).2.purchases_db newId =
      some (newPurchaseRecord newId now d) ∧
    (record_purchase st newId now d).2.user_entitlements_db =
      (match dictGet st.user_entitlements_db (d.userId, d.songId) with
       | some _ => st.user_entitlements_db
       | none =>
           dictSet st.user_entitlements_db (d.userId, d.songId)
             { userId := d.userId, songId := d.songId,
               source := EntitlementSource.purchase, grantedAt := now }) ∧
    dictGet (record_purchase st newId now d).2.user_entitlements_db (d.userId, d.songId) =
      (match dictGet st.user_entitlements_db (d.userId, d.songId) with
       | some e => some e
       | none =>
           some { userId := d.userId, songId := d.songId,
                  source := EntitlementSource.purchase, grantedAt := now }) := by
  have hu' : dictGet st.users_db d.userId ≠ none := Option.ne_none_iff_isSome.mpr hu
  have hs' : dictGet st.songs_db d.songId ≠ none := Option.ne_none_iff_isSome.mpr hs
  unfold record_purchase
  cases hent : dictGet st.user_entitlements_db (d.userId, d.songId) with
  | none => simp [hu', hs', dictContains, hent, dictGet_dictSet_self]
  | some e => simp [hu', hs', dictContains, hent, dictGet_dictSet_self]

/-- Witness for claim_C2: the first purchase of song 2 by user 1 in a store
with no entitlement yet. -/
theorem claim_C2_witness :
    dictContains userSongStore.users_db samplePurchaseCreate.userId = true ∧
    dictContains userSongStore.songs_db samplePurchaseCreate.songId = true ∧
    ((record_purchase userSongStore 4 12 samplePurchaseCreate).1 =
        Except.ok (newPurchaseRecord 4 12 samplePurchaseCreate) ∧
      dictGet (record_purchase userSongStore 4 12 samplePurchaseCreate).2.purchases_db 4 =
        some (newPurchaseRecord 4 12 samplePurchaseCreate) ∧
      (record_purchase userSongStore 4 12 samplePurchaseCreate).2.user_entitlements_db =
        (match dictGet userSongStore.user_entitlements_db
            (samplePurchaseCreate.userId, samplePurchaseCreate.songId) with
         | some _ => userSongStore.user_entitlements_db
         | none =>
             dictSet userSongStore.user_entitlements_db
               (samplePurchaseCreate.userId, samplePurchaseCreate.songId)
               { userId := samplePurchaseCreate.userId,
                 songId := samplePurchaseCreate.songId,
                 source := EntitlementSource.purchase, grantedAt := 12 }) ∧
      dictGet (record_purchase userSongStore 4 12 samplePurchaseCreate).2.user_entitlements_db
          (samplePurchaseCreate.userId, samplePurchaseCreate.songId) =
        (match dictGet userSongStore.user_entitlements_db
            (samplePurchaseCreate.userId, samplePurchaseCreate.songId) with
         | some e => some e
         | none =>
             some { userId := samplePurchaseCreate.userId,
                    songId := samplePurchaseCreate.songId,
                    source := EntitlementSource.purchase, grantedAt := 12 })) :=
  ⟨by decide, by decide,
   claim_C2 userSongStore 4 12 samplePurchaseCreate (by decide) (by decide)⟩

/-- C3.  The claim says fetching a GameplaySession is side-effect free.  It
fails: the handler assigns to the performance attribute of the stored object
through the dict reference, so after the read the stored session record has
its performance field overwritten.  The state below is reached through the
API (session created, then its metric submitted): the stored session still
carries performance none, and the read rewrites it to the stored metric. -/
theorem claim_C3_counterexample :
    (get_gameplay_session_by_id sessionStore 3).2 ≠ sessionStore := by
  decide

/-- C3 amended: fetching a GameplaySession leaves every table except the
session table unchanged, and leaves the session table unchanged except that,
when the id exists, the stored session record is rewritten with its
performance field set to the currently stored PerformanceMetric for that id
(none when no metric exists). -/
theorem claim_C3_amended (st : Store) (session_id : Id) :
    (get_gameplay_session_by_id st session_id).2.users_db = st.users_db ∧
    (get_gameplay_session_by_id st session_id).2.songs_db = st.songs_db ∧
    (get_gameplay_session_by_id st session_id).2.user_entitlements_db =
      st.user_entitlements_db ∧
    (get_gameplay_session_by_id st session_id).2.performance_metrics_db =
      st.performance_metrics_db ∧
    (get_gameplay_session_by_id st session_id).2.purchases_db = st.purchases_db ∧
    (get_gameplay_session_by_id st session_id).2.admins_db = st.admins_db ∧
    (get_gameplay_session_by_id st session_id).2.gameplay_sessions_db =
      (match dictGet st.gameplay_sessions_db session_id with
       | none => st.gameplay_sessions_db
       | some s =>
           dictSet st.gameplay_sessions_db session_id
             { s with performance := dictGet st.performance_metrics_db session_id }) := by
  unfold get_gameplay_session_by_id
  cases hs : dictGet st.gameplay_sessions_db session_id <;> simp

/-- C4: fetching an existing GameplaySession returns the stored record with
its performance field equal to the stored PerformanceMetric for that session
id (so some metric when one was submitted, none otherwise). -/
theorem claim_C4 (st : Store) (session_id : Id) (s : GameplaySessionResponse)
    (h : dictGet st.gameplay_sessions_db session_id = some s) :
    (get_gameplay_session_by_id st session_id).1 =
      Except.ok { s with performance := dictGet st.performance_metrics_db session_id } := by
  unfold get_gameplay_session_by_id
  rw [h]

/-- Witness for claim_C4: after the metric for session 3 was submitted, the
read returns the session with performance populated by that metric. -/
theorem claim_C4_witness :
    dictGet sessionStore.gameplay_sessions_db 3 = some sampleStoredSession ∧
    dictGet sessionStore.performance_metrics_db 3 = some sampleStoredMetric ∧
    (get_gameplay_session_by_id sessionStore 3).1 =
      Except.ok { sampleStoredSession with
        performance := dictGet sessionStore.performance_metrics_db 3 } :=
  ⟨by decide, by decide, claim_C4 sessionStore 3 sampleStoredSession (by decide)⟩

/-- Store reached by creating a user and a song, granting the user an
entitlement for the song, then deleting the user (no cascade, so the
entitlement dangles). -/
def entitlementNoUserStore : Store :=
  runOps emptyStore
    [Op.createUser 1 10 { name := "alice", email := "a@x.com" },
     Op.createSong 2 11 sampleSongCreate,
     Op.grantUserEntitlement 1 12
       { userId := 1, songId := 2, source := EntitlementSource.promo },
     Op.deleteUser 1]

/-- Store with one user, one song and one entitlement for the pair. -/
def entitledStore : Store :=
  runOps emptyStore
    [Op.createUser 1 10 { name := "alice", email := "a@x.com" },
     Op.createSong 2 11 sampleSongCreate,
     Op.grantUserEntitlement 1 12
       { userId := 1, songId := 2, source := EntitlementSource.promo }]

/-- C5.  The claim says creating another Entitlement for a pair that already
has one always fails with Conflict.  It fails as stated: the handler checks
the User and Song foreign keys first, so in a reachable state whose user was
deleted after the grant, the second grant fails with NotFound, not
Conflict. -/
theorem claim_C5_counterexample :
    dictContains entitlementNoUserStore.user_entitlements_db (1, 2) = true ∧
    (grant_user_entitlement entitlementNoUserStore 1 13
        { userId := 1, songId := 2, source := EntitlementSource.promo }).1 =
      Except.error (ApiError.notFound "User not found") := by
  decide

/-- C5 amended: provided the path id matches the body userId and the
referenced User and Song exist in the store, creating another Entitlement for
a pair that already has a stored Entitlement fails with Conflict and the
whole store, the previously stored Entitlement record included, is
unchanged. -/
theorem claim_C5_amended (st : Store) (user_id : Id) (now : Time)
    (d : UserEntitlementCreate)
    (hpath : user_id = d.userId)
    (hu : dictContains st.users_db user_id = true)
    (hsong : dictContains st.songs_db d.songId = true)
    (he : dictContains st.user_entitlements_db (user_id, d.songId) = true) :
    grant_user_entitlement st user_id now d =
      (Except.error (ApiError.conflict "User already has this entitlement"), st) := by
  subst hpath
  simp [grant_user_entitlement, hu, hsong, he]

/-- Entitlement-creation request for the pair (1, 2) used in the C5 witness. -/
def repeatGrantRequest : UserEntitlementCreate :=
  { userId := 1, songId := 2, source := EntitlementSource.admin }

/-- Witness for claim_C5_amended: a second grant for the already-entitled
pair (1, 2) is rejected with Conflict and the store is unchanged. -/
theorem claim_C5_witness :
    (1 : Id) = repeatGrantRequest.userId ∧
    dictContains entitledStore.users_db 1 = true ∧
    dictContains entitledStore.songs_db repeatGrantRequest.songId = true ∧
    dictContains entitledStore.user_entitlements_db (1, repeatGrantRequest.songId) = true ∧
    grant_user_entitlement entitledStore 1 13 repeatGrantRequest =
      (Except.error (ApiError.conflict "User already has this entitlement"), entitledStore) :=
  ⟨by decide, by decide, by decide, by decide,
   claim_C5_amended entitledStore 1 13 repeatGrantRequest
     (by decide) (by decide) (by decide) (by decide)⟩

/-- C6: submitting a PerformanceMetric fails with NotFound when the session
does not exist (store unchanged); it fails with Conflict when the session
exists and a metric already exists for it (store unchanged, so the original
metric is untouched); and no operation of the whole API ever removes or
alters a stored metric, so metrics are immutable after creation. -/
theorem claim_C6 :
    (∀ (st : Store) (session_id : Id) (now : Time) (d : PerformanceMetricCreate),
        dictContains st.gameplay_sessions_db session_id = false →
        submit_performance_metrics st session_id now d =
          (Except.error (ApiError.notFound "Gameplay session not found"), st)) ∧
    (∀ (st : Store) (session_id : Id) (now : Time) (d : PerformanceMetricCreate),
        dictContains st.gameplay_sessions_db session_id = true →
        dictContains st.performance_metrics_db session_id = true →
        submit_performance_metrics st session_id now d =
          (Except.error (ApiError.conflict "Performance metrics already exist for this session"), st)) ∧
    (∀ (st : Store) (op : Op) (sid : Id) (m : PerformanceMetricResponse),
        dictGet st.performance_metrics_db sid = some m →
        dictGet (step st op).performance_metrics_db sid = some m) := by
  refine ⟨?_, ?_, step_preserves_stored_metric⟩
  · intro st session_id now d h
    simp [submit_performance_metrics, h]
  · intro st session_id now d h1 h2
    simp [submit_performance_metrics, h1, h2]

/-- Witness for claim_C6: submitting for the unknown session 9 is NotFound;
resubmitting for session 3 (which already has a metric) is Conflict with the
store unchanged; and an unrelated operation leaves the stored metric in
place. -/
theorem claim_C6_witness :
    (dictContains sessionStore.gameplay_sessions_db 9 = false ∧
      submit_performance_metrics sessionStore 9 14 sampleMetricCreate =
        (Except.error (ApiError.notFound "Gameplay session not found"), sessionStore)) ∧
    (dictContains sessionStore.gameplay_sessions_db 3 = true ∧
      dictContains sessionStore.performance_metrics_db 3 = true ∧
      submit_performance_metrics sessionStore 3 14 sampleMetricCreate =
        (Except.error (ApiError.conflict "Performance metrics already exist for this session"),
         sessionStore)) ∧
    (dictGet sessionStore.performance_metrics_db 3 = some sampleStoredMetric ∧
      dictGet (step sessionStore
          (Op.updateGameplaySession 3
            { endedAt := none, deviceInfo := none, isSynced := some true })).performance_metrics_db 3 =
        some sampleStoredMetric) :=
  ⟨⟨by decide, claim_C6.1 sessionStore 9 14 sampleMetricCreate (by decide)⟩,
   ⟨by decide, by decide, claim_C6.2.1 sessionStore 3 14 sampleMetricCreate (by decide) (by decide)⟩,
   ⟨by decide, claim_C6.2.2 sessionStore
      (Op.updateGameplaySession 3 { endedAt := none, deviceInfo := none, isSynced := some true })
      3 sampleStoredMetric (by decide)⟩⟩

/-- The empty user patch: no field supplied. -/
def emptyUserUpdate : UserUpdate := { name := none, email := none }

/-- The empty song patch: no field supplied. -/
def emptySongUpdate : SongUpdate :=
  { title := none, artist := none, bpm := none, durationSeconds := none,
    beatmapJson := none, audioPath := none, coverPath := none,
    version := none, isPublished := none }

/-- The empty gameplay session patch: no field supplied. -/
def emptyGameplaySessionUpdate : GameplaySessionUpdate :=
  { endedAt := none, deviceInfo := none, isSynced := none }

/-- The empty purchase patch: no field supplied. -/
def emptyPurchaseUpdate : PurchaseUpdate :=
  { priceCents := none, currency := none, paymentProcessor := none,
    paymentReference := none, refunded := none }

/-- The empty admin patch: no role supplied. -/
def emptyAdminUpdate : AdminUpdate := { role := none }

/-- C7: updating any existing entity with an empty patch leaves every field
unchanged, except that User and Song (the entities carrying updatedAt) get
updatedAt set to the operation time; GameplaySession, Purchase and Admin
updates with an empty patch leave the store exactly as it was. -/
theorem claim_C7 :
    (∀ (st : Store) (user_id : Id) (now : Time) (u : UserResponse),
        dictGet st.users_db user_id = some u →
        update_user st user_id now emptyUserUpdate =
          (Except.ok { u with updatedAt := now },
           { st with users_db := dictSet st.users_db user_id { u with updatedAt := now } })) ∧
    (∀ (st : Store) (song_id : Id) (now : Time) (s : SongResponse),
        dictGet st.songs_db song_id = some s →
        update_song st song_id now emptySongUpdate =
          (Except.ok { s with updatedAt := now },
           { st with songs_db := dictSet st.songs_db song_id { s with updatedAt := now } })) ∧
    (∀ (st : Store) (session_id : Id) (s : GameplaySessionResponse),
        dictGet st.gameplay_sessions_db session_id = some s →
        update_gameplay_session st session_id emptyGameplaySessionUpdate =
          (Except.ok s, st)) ∧
    (∀ (st : Store) (purchase_id : Id) (p : PurchaseResponse),
        dictGet st.purchases_db purchase_id = some p →
        update_purchase st purchase_id emptyPurchaseUpdate = (Except.ok p, st)) ∧
    (∀ (st : Store) (admin_id : Id) (a : AdminResponse),
        dictGet st.admins_db admin_id = some a →
        update_admin_role st admin_id emptyAdminUpdate = (Except.ok a, st)) := by
  refine ⟨?_, ?_, ?_, ?_, ?_⟩
  · intro st user_id now u h
    unfold update_user
    simp only [h]
    rw [show applyUserUpdate u emptyUserUpdate = u from rfl]
  · intro st song_id now s h
    unfold update_song
    simp only [h]
    rw [show applySongUpdate s emptySongUpdate = s from rfl]
  · intro st session_id s h
    unfold update_gameplay_session
    simp only [h]
    rw [show applyGameplaySessionUpdate s emptyGameplaySessionUpdate = s from rfl]
    rw [dictSet_self h]
  · intro st purchase_id p h
    unfold update_purchase
    simp only [h]
    rw [show applyPurchaseUpdate p emptyPurchaseUpdate = p from rfl]
    rw [dictSet_self h]
  · intro st admin_id a h
    unfold update_admin_role
    simp only [h, emptyAdminUpdate]
    rw [dictSet_self h]

/-- The user record stored in twoUserStore under id 1. -/
def sampleStoredUser : UserResponse :=
  { id := 1, name := "alice", email := "a@x.com", createdAt := 10, updatedAt := 10 }

/-- Witness for claim_C7: an empty-patch update on the stored user bumps only
updatedAt, and an empty-patch update on the stored session changes nothing. -/
theorem claim_C7_witness :
    (dictGet twoUserStore.users_db 1 = some sampleStoredUser ∧
      update_user twoUserStore 1 42 emptyUserUpdate =
        (Except.ok { sampleStoredUser with updatedAt := 42 },
         { twoUserStore with
             users_db := dictSet twoUserStore.users_db 1
               { sampleStoredUser with updatedAt := 42 } })) ∧
    (dictGet sessionStore.gameplay_sessions_db 3 = some sampleStoredSession ∧
      update_gameplay_session sessionStore 3 emptyGameplaySessionUpdate =
        (Except.ok sampleStoredSession, sessionStore)) :=
  ⟨⟨by decide, claim_C7.1 twoUserStore 1 42 sampleStoredUser (by decide)⟩,
   ⟨by decide, claim_C7.2.2.1 sessionStore 3 sampleStoredSession (by decide)⟩⟩

/-- Store with a user, a song and a recorded purchase (id 4, at time 12),
whose orchestration granted the entitlement for (1, 2). -/
def purchasedStore : Store :=
  runOps emptyStore
    [Op.createUser 1 10 { name := "alice", email := "a@x.com" },
     Op.createSong 2 11 sampleSongCreate,
     Op.recordPurchase 4 12 samplePurchaseCreate]

/-- The purchase record stored in purchasedStore under id 4. -/
def sampleStoredPurchase : PurchaseResponse :=
  newPurchaseRecord 4 12 samplePurchaseCreate

/-- The entitlement granted by the purchase in purchasedStore. -/
def sampleStoredEntitlement : UserEntitlementResponse :=
  { userId := 1, songId := 2, source := EntitlementSource.purchase, grantedAt := 12 }

/-- Purchase patch that only sets refunded to true. -/
def refundPatch : PurchaseUpdate :=
  { priceCents := none, currency := none, paymentProcessor := none,
    paymentReference := none, refunded := some true }

/-- C9: updating a stored Purchase (refunding included) touches only the
purchases table, rewriting that one record; its identity fields are
untouched, each updatable field keeps its old value unless the patch
supplies one, and the entitlement stored for the purchase pair is still
there, unchanged, afterwards. -/
theorem claim_C9 (st : Store) (purchase_id : Id) (d : PurchaseUpdate)
    (p : PurchaseResponse) (e : UserEntitlementResponse)
    (h : dictGet st.purchases_db purchase_id = some p)
    (he : dictGet st.user_entitlements_db (p.userId, p.songId) = some e) :
    (update_purchase st purchase_id d).1 = Except.ok (applyPurchaseUpdate p d) ∧
    (update_purchase st purchase_id d).2 =
      { st with purchases_db := dictSet st.purchases_db purchase_id (applyPurchaseUpdate p d) } ∧
    dictGet (update_purchase st purchase_id d).2.user_entitlements_db (p.userId, p.songId) =
      some e ∧
    (applyPurchaseUpdate p d).id = p.id ∧
    (applyPurchaseUpdate p d).userId = p.userId ∧
    (applyPurchaseUpdate p d).songId = p.songId ∧
    (applyPurchaseUpdate p d).purchasedAt = p.purchasedAt ∧
    (applyPurchaseUpdate p d).priceCents = d.priceCents.getD p.priceCents ∧
    (applyPurchaseUpdate p d).currency = d.currency.getD p.currency ∧
    (applyPurchaseUpdate p d).paymentProcessor = d.paymentProcessor.getD p.paymentProcessor ∧
    (applyPurchaseUpdate p d).paymentReference = d.paymentReference.getD p.paymentReference ∧
    (applyPurchaseUpdate p d).refunded = d.refunded.getD p.refunded := by
  unfold update_purchase
  simp only [h]
  exact ⟨trivial, trivial, he, rfl, rfl, rfl, rfl, rfl, rfl, rfl, rfl, rfl⟩

/-- Witness for claim_C9: refunding the stored purchase 4 keeps the
entitlement for (1, 2) in place and rewrites only the purchase record. -/
theorem claim_C9_witness :
    (dictGet purchasedStore.purchases_db 4 = some sampleStoredPurchase ∧
      dictGet purchasedStore.user_entitlements_db
        (sampleStoredPurchase.userId, sampleStoredPurchase.songId) =
        some sampleStoredEntitlement) ∧
    ((update_purchase purchasedStore 4 refundPatch).1 =
        Except.ok (applyPurchaseUpdate sampleStoredPurchase refundPatch) ∧
      (update_purchase purchasedStore 4 refundPatch).2 =
        { purchasedStore with
            purchases_db := dictSet purchasedStore.purchases_db 4
              (applyPurchaseUpdate sampleStoredPurchase refundPatch) } ∧
      dictGet (update_purchase purchasedStore 4 refundPatch).2.user_entitlements_db
          (sampleStoredPurchase.userId, sampleStoredPurchase.songId) =
        some sampleStoredEntitlement ∧
      (applyPurchaseUpdate sampleStoredPurchase refundPatch).id = sampleStoredPurchase.id ∧
      (applyPurchaseUpdate sampleStoredPurchase refundPatch).userId =
        sampleStoredPurchase.userId ∧
      (applyPurchaseUpdate sampleStoredPurchase refundPatch).songId =
        sampleStoredPurchase.songId ∧
      (applyPurchaseUpdate sampleStoredPurchase refundPatch).purchasedAt =
        sampleStoredPurchase.purchasedAt ∧
      (applyPurchaseUpdate sampleStoredPurchase refundPatch).priceCents =
        refundPatch.priceCents.getD sampleStoredPurchase.priceCents ∧
      (applyPurchaseUpdate sampleStoredPurchase refundPatch).currency =
        refundPatch.currency.getD sampleStoredPurchase.currency ∧
      (applyPurchaseUpdate sampleStoredPurchase refundPatch).paymentProcessor =
        refundPatch.paymentProcessor.getD sampleStoredPurchase.paymentProcessor ∧
      (applyPurchaseUpdate sampleStoredPurchase refundPatch).paymentReference =
        refundPatch.paymentReference.getD sampleStoredPurchase.paymentReference ∧
      (applyPurchaseUpdate sampleStoredPurchase refundPatch).refunded =
        refundPatch.refunded.getD sampleStoredPurchase.refunded) :=
  ⟨⟨by decide, by decide⟩,
   claim_C9 purchasedStore 4 refundPatch sampleStoredPurchase sampleStoredEntitlement
     (by decide) (by decide)⟩

/-- C10: listing a user's entitlements never changes the store; it fails
with NotFound when the user id has no stored User record, and otherwise
returns the list of stored entitlements whose userId equals the given id,
which contains exactly the stored entitlements with that userId. -/
theorem claim_C10 (st : Store) (user_id : Id) :
    (get_user_entitlements st user_id).2 = st ∧
    (get_user_entitlements st user_id).1 =
      (if dictContains st.users_db user_id
       then Except.ok ((dictValues st.user_entitlements_db).filter
              (fun ent => ent.userId == user_id))
       else Except.error (ApiError.notFound "User not found")) ∧
    (∀ e : UserEntitlementResponse,
        e ∈ (dictValues st.user_entitlements_db).filter (fun ent => ent.userId == user_id) ↔
          e ∈ dictValues st.user_entitlements_db ∧ e.userId = user_id) := by
  refine ⟨?_, ?_, ?_⟩
  · unfold get_user_entitlements
    split <;> rfl
  · unfold get_user_entitlements
    cases hc : dictContains st.users_db user_id <;> simp [hc]
  · intro e
    simp [List.mem_filter]

end RhythmGame
